import Mathlib

/-!
Shallow embedding of `src/examples/demo-rx.py` (the demo receiver of the
leadpro/satellite repository): the frame encoder
(`create_output_data_struct`), the gap computation of `catch_up`
(`missing_num`), the message fetch (`fetch_api_data`), and an operational
model of the `main` event loop with its reconnection handling.

Bytes are modelled as `List Nat` (each entry one byte value).  HTTP
responses are a status code plus a content byte string.  Exceptions are
modelled explicitly: `raise_for_status` on a `requests` response raises
exactly when the status code is in `[400, 600)`; `json.loads` on a
malformed payload raises a decode error.  The `try`/`except` of `main`
catches only `requests.exceptions.ChunkedEncodingError`, so every other
exception terminates the process.
-/

namespace DemoRx

/-- Maximum transmission sequence number (`MAX_SEQ_NUM = 2 ** 31` in
`demo-rx.py`, line 18). -/
def MAX_SEQ_NUM : Nat := 2 ^ 31

/-- Byte values of the 64-byte `OUT_DATA_DELIMITER` string constant of
`demo-rx.py` (lines 14-16), read off character by character (the script
is Python 2, so the `str` literal is a byte string). -/
def OUT_DATA_DELIMITER : List Nat :=
  [118, 121, 113, 122, 98, 101, 102, 114, 115, 110, 122, 113, 97, 104,
   103, 100, 107, 114, 115, 105, 100, 122, 105, 103, 120, 118, 114, 112,
   112, 97, 116, 111, 224, 224, 36, 26, 228, 91, 34, 181, 90, 11, 118,
   23, 167, 167, 157, 165, 214, 0, 87, 125, 77, 166, 84, 79, 218, 55,
   250, 101, 117, 58, 172, 220]

/-- Little-endian base-256 encoding of `n` into a given number of bytes,
the layout `struct.pack` uses for the `Q` field of the `64sQ` header
format on a little-endian machine. -/
def packLE : Nat → Nat → List Nat
  | 0, _ => []
  | k + 1, n => n % 256 :: packLE k (n / 256)

/-- Eight-byte little-endian encoding of `n`: the `Q` (native unsigned
long long) field of the packed header. -/
def packUint64LE (n : Nat) : List Nat := packLE 8 n

/-- Embedding of `create_output_data_struct` (`demo-rx.py`, lines 21-44):
the packed `64sQ` header followed by the data, i.e. the 64-byte
delimiter, the payload length as an 8-byte fixed-width unsigned integer,
then the raw payload bytes unmodified. -/
def create_output_data_struct (data : List Nat) : List Nat :=
  OUT_DATA_DELIMITER ++ packUint64LE data.length ++ data

/-- Decode a little-endian byte string back to a natural number (the
inverse direction of `packLE`, used to state the header round trip). -/
def readLE (bs : List Nat) : Nat := bs.foldr (fun b acc => b + 256 * acc) 0

/-- Modelled from the spec: the header parse performed by the downstream
reader of the Sink.  It checks the 64-byte delimiter, reads the 8-byte
length field, and takes that many payload bytes.  The source repository
contains only the writer side; this definition follows the wording of
the specification (delimiter, fixed-width length, payload) to express
the round-trip property. -/
def parseFrame (out : List Nat) : Option (Nat × List Nat) :=
  if out.take 64 = OUT_DATA_DELIMITER then
    some (readLE ((out.drop 64).take 8),
          (out.drop 72).take (readLE ((out.drop 64).take 8)))
  else none

/-- Embedding of the `missing_num` computation of `catch_up`
(`demo-rx.py`, lines 84-93).  The Python `range(a, b)` is
`List.range' a (b - a)` (empty when `b ≤ a`, which Nat subtraction gives
for free).  When `current_seq_num < last_seq_num` the code unwraps by
adding `MAX_SEQ_NUM`, ranges over the unwrapped numbers and reduces each
modulo `MAX_SEQ_NUM`; otherwise it ranges from `last + 1` up to
`current - 1`. -/
def missing_num (last_seq_num current_seq_num : Nat) : List Nat :=
  if current_seq_num < last_seq_num then
    (List.range' (last_seq_num + 1)
        ((current_seq_num + MAX_SEQ_NUM) - (last_seq_num + 1))).map
      (fun x => x % MAX_SEQ_NUM)
  else
    List.range' (last_seq_num + 1) (current_seq_num - (last_seq_num + 1))

/-- Stated from the wording of the specification, for comparison with the
code: the unwrap-range-reduce procedure (add `2^31` to `current`, range
over `(last+1) .. (current + 2^31 - 1)`, reduce each value modulo
`2^31`), applied unconditionally, as the specification asserts it is for
every `current ≤ last`. -/
def resolveWrapSpec (last current : Nat) : List Nat :=
  (List.range' (last + 1) ((current + MAX_SEQ_NUM) - (last + 1))).map
    (fun x => x % MAX_SEQ_NUM)

/-- An HTTP response: status code and content bytes. -/
structure Response where
  status_code : Nat
  content : List Nat
deriving DecidableEq

/-- Exceptions the event-processing code can raise: the `HTTPError` from
`raise_for_status` (status in `[400, 600)`) and the `ValueError` that
`json.loads` raises on a malformed event payload.  Neither is a
`requests.exceptions.ChunkedEncodingError`, so neither is caught by the
`except` clause of `main`. -/
inductive ProgError where
  | httpError (status : Nat)
  | jsonDecodeError
deriving DecidableEq

/-- Environment of a run: the two read endpoints of the message API.
`fetchSeq n` is the GET of `/message/n` issued during backfill inside
`catch_up`; `fetchMsg uuid` is the GET of `/order/uuid/sent_message`
issued by `fetch_api_data`. -/
structure Env where
  fetchSeq : Nat → Response
  fetchMsg : String → Response

/-- Observable state of one run of `main`: the `last_seq_num` variable,
the frames written to the pipe in order, the sequence numbers requested
during backfill (the GET requests of `catch_up`, in order), and a ghost
trace recording every executed assignment `last_seq_num = seq_num` (one
entry per assignment, used to count watermark updates). -/
structure St where
  last_seq_num : Option Nat
  writes : List (List Nat)
  backfillFetches : List Nat
  watermarkUpdates : List Nat
deriving DecidableEq

/-- State of the run before anything happened: `last_seq_num = None`
(`demo-rx.py`, line 166), nothing written, nothing fetched. -/
def initSt : St := ⟨none, [], [], []⟩

/-- Embedding of `fetch_api_data` (`demo-rx.py`, lines 47-65):
`raise_for_status` raises on a `[400, 600)` status; on `requests.codes.ok`
(200) the content is returned; on any other non-raising status the
Python function falls through and returns `None`. -/
def fetch_api_data (r : Response) : Except ProgError (Option (List Nat)) :=
  if 400 ≤ r.status_code ∧ r.status_code < 600 then
    Except.error (ProgError.httpError r.status_code)
  else if r.status_code = 200 then Except.ok (some r.content)
  else Except.ok none

/-- Embedding of the fetch loop of `catch_up` (`demo-rx.py`, lines
95-115) over an explicit list of missing sequence numbers.  For each one:
issue the GET (recorded in `backfillFetches`), then `raise_for_status`
(which aborts the loop, returning the exception), then on a 200 status
frame the content and write it to the pipe.  The raised `HTTPError` is
never caught, so an aborting run returns the state reached so far
together with the error. -/
def catch_upRun (fetchSeq : Nat → Response) :
    List Nat → St → St × Option ProgError
  | [], st => (st, none)
  | seq :: rest, st =>
    let r := fetchSeq seq
    let st1 := { st with backfillFetches := st.backfillFetches ++ [seq] }
    if 400 ≤ r.status_code ∧ r.status_code < 600 then
      (st1, some (ProgError.httpError r.status_code))
    else
      let st2 :=
        if r.status_code = 200 then
          { st1 with
              writes := st1.writes ++ [create_output_data_struct r.content] }
        else st1
      catch_upRun fetchSeq rest st2

/-- Embedding of the handling of one parsed order in `main`
(`demo-rx.py`, lines 185-212): only orders whose status is `sent` are
processed; when `last_seq_num` is set and the sequence number differs
from `(last_seq_num + 1) % MAX_SEQ_NUM`, `catch_up` runs first; then the
message is fetched by uuid, written to the pipe when the data is not
`None`, and finally `last_seq_num = seq_num` is executed (outside the
`if data is not None` guard). -/
def processOrder (env : Env) (status : String) (seq_num : Nat)
    (uuid : String) (st : St) : St × Option ProgError :=
  if status = "sent" then
    let gapResult :=
      match st.last_seq_num with
      | none => (st, none)
      | some last =>
        if seq_num ≠ (last + 1) % MAX_SEQ_NUM then
          catch_upRun env.fetchSeq (missing_num last seq_num) st
        else (st, none)
    match gapResult with
    | (st1, some e) => (st1, some e)
    | (st1, none) =>
      match fetch_api_data (env.fetchMsg uuid) with
      | Except.error e => (st1, some e)
      | Except.ok odata =>
        let st2 :=
          match odata with
          | some d =>
            { st1 with writes := st1.writes ++ [create_output_data_struct d] }
          | none => st1
        ({ st2 with
            last_seq_num := some seq_num,
            watermarkUpdates := st2.watermarkUpdates ++ [seq_num] }, none)
  else (st, none)

/-- One event as delivered by the SSE client: either a payload on which
`json.loads` raises (malformed), or a parsed order with its `status`,
`tx_seq_num` and `uuid` fields. -/
inductive RawEvent where
  | malformed
  | order (status : String) (tx_seq_num : Nat) (uuid : String)
deriving DecidableEq

/-- How a streaming session ends: with a
`requests.exceptions.ChunkedEncodingError` (the only exception the
`except` clause of `main` catches) or with any other stream-level
exception, such as a `requests.exceptions.ConnectionError` (not
caught). -/
inductive StreamEnd where
  | chunkedEncodingError
  | connectionError
deriving DecidableEq

/-- Outcome of a modelled run of `main`: the process crashed on an
uncaught processing exception, crashed on an uncaught stream exception,
or consumed every modelled session and is still running. -/
inductive Outcome where
  | crashed (e : ProgError)
  | fatalStream
  | ranOut
deriving DecidableEq

/-- Process the events of one streaming session in order, stopping at the
first event whose processing raises (a `json.loads` failure or an
uncaught `HTTPError` from a fetch). -/
def runSession (env : Env) : List RawEvent → St → St × Option ProgError
  | [], st => (st, none)
  | RawEvent.malformed :: _, st => (st, some ProgError.jsonDecodeError)
  | RawEvent.order status seq uuid :: rest, st =>
    match processOrder env status seq uuid st with
    | (st1, none) => runSession env rest st1
    | (st1, some e) => (st1, some e)

/-- A streaming session: the events decoded before the stream read
fails, and the exception that ends it. -/
abbrev Session := List RawEvent × StreamEnd

/-- Embedding of the `while True` loop of `main` (`demo-rx.py`, lines
169-216) over a finite list of modelled sessions.  An exception raised
while processing events propagates out of the `try` (it is not a
`ChunkedEncodingError`) and kills the process; a session ending in
`ChunkedEncodingError` is caught and the loop reconnects, keeping
`last_seq_num`; a session ending in any other stream exception kills the
process. -/
def runMain (env : Env) : List Session → St → St × Outcome
  | [], st => (st, Outcome.ranOut)
  | (evs, e) :: rest, st =>
    match runSession env evs st with
    | (st1, some err) => (st1, Outcome.crashed err)
    | (st1, none) =>
      match e with
      | StreamEnd.chunkedEncodingError => runMain env rest st1
      | StreamEnd.connectionError => (st1, Outcome.fatalStream)

/-- Environment in which the backfill fetch of sequence number 8 fails
with a 404 and every other fetch succeeds with status 200. -/
def envBackfill : Env :=
  ⟨fun seq => if seq = 8 then ⟨404, []⟩ else ⟨200, [seq % 256]⟩,
   fun _ => ⟨200, [1]⟩⟩

/-- Environment in which every fetch succeeds with status 200: backfill
of sequence number `s` returns the one-byte content `[s % 256]`, and
every fetch by uuid returns the one-byte content `[0]`. -/
def envAllOk : Env := ⟨fun s => ⟨200, [s % 256]⟩, fun _ => ⟨200, [0]⟩⟩

/-- Helper: the equality branch of the gap computation.  When
`current_seq_num` equals `last_seq_num` the wrap test is false and the
range from `last + 1` to `current - 1` is empty. -/
theorem missing_num_self (last : Nat) : missing_num last last = [] := by
  unfold missing_num
  rw [if_neg (lt_irrefl last)]
  have hz : last - (last + 1) = 0 := by omega
  rw [hz]
  exact List.range'_zero

/-- Helper: a backfill fetch whose status triggers `raise_for_status`
makes `catch_up` abort immediately: the failing sequence number is
requested, nothing is written, the rest of the gap is not visited, and
the `HTTPError` propagates. -/
theorem catch_upRun_cons_fail (fetchSeq : Nat → Response) (m : Nat)
    (rest : List Nat) (st : St)
    (h4 : 400 ≤ (fetchSeq m).status_code)
    (h5 : (fetchSeq m).status_code < 600) :
    catch_upRun fetchSeq (m :: rest) st
      = ({ st with backfillFetches := st.backfillFetches ++ [m] },
         some (ProgError.httpError (fetchSeq m).status_code)) := by
  have hc : (400 ≤ (fetchSeq m).status_code ∧ (fetchSeq m).status_code < 600)
      = True := eq_true ⟨h4, h5⟩
  unfold catch_upRun
  simp only [hc, if_true]

/-- Helper: on a 200 response, `fetch_api_data` returns the content. -/
theorem fetch_api_data_ok (r : Response) (hok : r.status_code = 200) :
    fetch_api_data r = Except.ok (some r.content) := by
  unfold fetch_api_data
  rw [if_neg (by omega : ¬ (400 ≤ r.status_code ∧ r.status_code < 600)),
    if_pos hok]

/-- Helper: on a `[400, 600)` status, `fetch_api_data` raises. -/
theorem fetch_api_data_err (r : Response) (h4 : 400 ≤ r.status_code)
    (h5 : r.status_code < 600) :
    fetch_api_data r = Except.error (ProgError.httpError r.status_code) := by
  unfold fetch_api_data
  rw [if_pos ⟨h4, h5⟩]

/-- Helper: on a non-raising, non-200 status, `fetch_api_data` returns
`None`. -/
theorem fetch_api_data_none (r : Response)
    (hno : ¬ (400 ≤ r.status_code ∧ r.status_code < 600))
    (hne : r.status_code ≠ 200) :
    fetch_api_data r = Except.ok none := by
  unfold fetch_api_data
  rw [if_neg hno, if_neg hne]

/-- Helper: processing a `sent` order with no watermark set and a 200
fetch-by-uuid response appends one frame and sets the watermark. -/
theorem processOrder_none_ok (env : Env) (seq_num : Nat) (uuid : String)
    (st : St) (hnone : st.last_seq_num = none)
    (hok : (env.fetchMsg uuid).status_code = 200) :
    processOrder env "sent" seq_num uuid st
      = ({ st with
            writes := st.writes ++
              [create_output_data_struct (env.fetchMsg uuid).content],
            last_seq_num := some seq_num,
            watermarkUpdates := st.watermarkUpdates ++ [seq_num] }, none) := by
  unfold processOrder
  rw [hnone]
  simp only [if_pos rfl, fetch_api_data_ok _ hok, if_true]

/-- Helper: a session that ends in `ChunkedEncodingError` after its
events processed cleanly is caught, and the loop reconnects with the
state the session produced. -/
theorem runMain_cons_chunked (env : Env) (evs : List RawEvent)
    (rest : List Session) (st st' : St)
    (h : runSession env evs st = (st', none)) :
    runMain env ((evs, StreamEnd.chunkedEncodingError) :: rest) st
      = runMain env rest st' := by
  rw [show runMain env ((evs, StreamEnd.chunkedEncodingError) :: rest) st
      = (match runSession env evs st with
         | (st1, some err) => (st1, Outcome.crashed err)
         | (st1, none) => runMain env rest st1) from rfl, h]

/-- Helper: a session that ends in any other stream exception is not
caught and the process dies. -/
theorem runMain_cons_conn (env : Env) (evs : List RawEvent)
    (rest : List Session) (st st' : St)
    (h : runSession env evs st = (st', none)) :
    runMain env ((evs, StreamEnd.connectionError) :: rest) st
      = (st', Outcome.fatalStream) := by
  rw [show runMain env ((evs, StreamEnd.connectionError) :: rest) st
      = (match runSession env evs st with
         | (st1, some err) => (st1, Outcome.crashed err)
         | (st1, none) => (st1, Outcome.fatalStream)) from rfl, h]

/-- Helper: `catch_up` never assigns `last_seq_num`: however long the
missing list and whatever the fetch results, the watermark and the
update trace are untouched. -/
theorem catch_upRun_preserves (fetchSeq : Nat → Response)
    (missing : List Nat) (st : St) :
    (catch_upRun fetchSeq missing st).1.watermarkUpdates
      = st.watermarkUpdates ∧
    (catch_upRun fetchSeq missing st).1.last_seq_num = st.last_seq_num := by
  induction missing generalizing st with
  | nil => exact ⟨rfl, rfl⟩
  | cons seq rest ih =>
    by_cases hc : 400 ≤ (fetchSeq seq).status_code ∧
        (fetchSeq seq).status_code < 600
    · rw [catch_upRun_cons_fail _ _ _ _ hc.1 hc.2]
      exact ⟨rfl, rfl⟩
    · by_cases h200 : (fetchSeq seq).status_code = 200
      · unfold catch_upRun
        simp only [eq_false hc, if_false, eq_true h200, if_true]
        exact ⟨(ih _).1, (ih _).2⟩
      · unfold catch_upRun
        simp only [eq_false hc, if_false, eq_false h200]
        exact ⟨(ih _).1, (ih _).2⟩

/-- C1: for `last < current < 2^31`, the gap computation of `catch_up`
is exactly the list `[last+1, ..., current-1]` (stated as the
half-open range starting at `last + 1`, with a membership
characterisation) in strictly increasing order, and when `last_seq_num`
is `None` no backfill is performed at all. -/
theorem gap_no_wrap (last current : Nat) (h1 : last < current)
    (h2 : current < MAX_SEQ_NUM) :
    missing_num last current = List.range' (last + 1) (current - (last + 1)) ∧
    (∀ x, x ∈ missing_num last current ↔ last + 1 ≤ x ∧ x < current) ∧
    (missing_num last current).Pairwise (· < ·) ∧
    ∀ (env : Env) (uuid : String) (st : St), st.last_seq_num = none →
      ((processOrder env "sent" current uuid st).1).backfillFetches =
        st.backfillFetches := by
  have hnl : ¬ current < last := by omega
  have heq : missing_num last current
      = List.range' (last + 1) (current - (last + 1)) := by
    unfold missing_num
    rw [if_neg hnl]
  refine ⟨heq, ?_, ?_, ?_⟩
  · intro x
    rw [heq, List.mem_range'_1]
    omega
  · rw [heq]
    exact List.pairwise_lt_range' _ _
  · intro env uuid st hnone
    unfold processOrder
    rw [hnone]
    simp only [if_pos rfl]
    cases hfd : fetch_api_data (env.fetchMsg uuid) with
    | error e => simp
    | ok odata => cases odata <;> simp

/-- Witness for C1 at `last = 2`, `current = 5`. -/
theorem gap_no_wrap_witness :
    missing_num 2 5 = List.range' (2 + 1) (5 - (2 + 1)) ∧
    (∀ x, x ∈ missing_num 2 5 ↔ 2 + 1 ≤ x ∧ x < 5) ∧
    (missing_num 2 5).Pairwise (· < ·) ∧
    ∀ (env : Env) (uuid : String) (st : St), st.last_seq_num = none →
      ((processOrder env "sent" 5 uuid st).1).backfillFetches =
        st.backfillFetches :=
  gap_no_wrap 2 5 (by decide) (by decide)

/-- C2 counterexample: at `last = current = 5` the code computes the
empty missing list, while the unconditional unwrap-range-reduce
procedure stated for every `current ≤ last` yields a non-empty list
(of length `2^31 - 1`), so the two disagree at the equality case. -/
theorem gap_wrap_counterexample :
    missing_num 5 5 = [] ∧ resolveWrapSpec 5 5 ≠ [] := by
  refine ⟨by decide, fun h => ?_⟩
  have hlen := congrArg List.length h
  simp only [resolveWrapSpec, List.length_map, List.length_range',
    List.length_nil, MAX_SEQ_NUM] at hlen
  norm_num at hlen

/-- C2 amended: the unwrap-range-reduce procedure is applied exactly when
`current < last` (strictly); when `current = last` the else branch
produces the empty list, so the equal case is a no-op; the wrapped
examples hold: the gap from `2^31 - 2` to `1` is `[2^31 - 1, 0]` and the
gap from `5` to `5` is empty. -/
theorem gap_wrap_amended :
    (∀ last current : Nat, current < last →
      missing_num last current = resolveWrapSpec last current) ∧
    (∀ last : Nat, missing_num last last = []) ∧
    missing_num (2 ^ 31 - 2) 1 = [2 ^ 31 - 1, 0] ∧
    missing_num 5 5 = [] := by
  refine ⟨?_, missing_num_self, by decide, by decide⟩
  intro last current h
  unfold missing_num resolveWrapSpec
  rw [if_pos h]

/-- Witness for C2 amended at `last = 1`, `current = 0` and at
`last = current = 3`. -/
theorem gap_wrap_amended_witness :
    missing_num 1 0 = resolveWrapSpec 1 0 ∧ missing_num 3 3 = [] :=
  ⟨gap_wrap_amended.1 1 0 (by decide), gap_wrap_amended.2.1 3⟩

/-- C3 counterexample: with the watermark at 7 and a live event with
sequence number 10, the backfill fetch of sequence number 8 returns 404;
the run crashes with the uncaught `HTTPError`: sequence number 9 is
never fetched (remaining backfill aborted), the live message 10 is never
fetched or written, and the watermark stays at 7. -/
theorem backfill_failure_counterexample :
    runMain envBackfill
        [([RawEvent.order "sent" 7 "a", RawEvent.order "sent" 10 "b"],
          StreamEnd.chunkedEncodingError)] initSt
      = (⟨some 7, [create_output_data_struct [1]], [8], [7]⟩,
         Outcome.crashed (ProgError.httpError 404)) := by decide

/-- C3 amended: a fetch failure (status in `[400, 600)`) for the first
missing sequence number of a gap raises an uncaught `HTTPError`: it
aborts the remaining backfill, blocks the fetch and delivery of the
triggering live message, and leaves the state otherwise unchanged (no
write, no watermark update), terminating the process. -/
theorem backfill_failure_aborts (env : Env) (last seq_num m : Nat)
    (rest : List Nat) (uuid : String) (st : St)
    (hlast : st.last_seq_num = some last)
    (hmiss : missing_num last seq_num = m :: rest)
    (hgap : seq_num ≠ (last + 1) % MAX_SEQ_NUM)
    (h4 : 400 ≤ (env.fetchSeq m).status_code)
    (h5 : (env.fetchSeq m).status_code < 600) :
    processOrder env "sent" seq_num uuid st
      = ({ st with backfillFetches := st.backfillFetches ++ [m] },
         some (ProgError.httpError (env.fetchSeq m).status_code)) := by
  unfold processOrder
  rw [hlast]
  simp only [if_pos rfl, if_pos hgap, hmiss,
    catch_upRun_cons_fail _ _ _ _ h4 h5, if_true]
  rw [hlast]

/-- Witness for C3 amended: watermark 7, live event 10, gap `[8, 9]`,
every backfill fetch returns 404. -/
theorem backfill_failure_aborts_witness :
    processOrder ⟨fun _ => ⟨404, []⟩, fun _ => ⟨200, []⟩⟩ "sent" 10 "b"
        ⟨some 7, [], [], []⟩
      = (⟨some 7, [], [8], []⟩, some (ProgError.httpError 404)) :=
  backfill_failure_aborts _ 7 10 8 [9] "b" _ rfl (by decide) (by decide)
    (by decide) (by decide)

/-- C4 counterexample: a single malformed event payload makes
`json.loads` raise; the exception is not a `ChunkedEncodingError`, so the
modelled process terminates instead of skipping the event. -/
theorem decode_failure_counterexample :
    runMain ⟨fun _ => ⟨200, []⟩, fun _ => ⟨200, []⟩⟩
        [([RawEvent.malformed], StreamEnd.chunkedEncodingError)] initSt
      = (initSt, Outcome.crashed ProgError.jsonDecodeError) := by decide

/-- C4 amended: a decoding failure on an individual pushed event raises
an uncaught exception that tears down the stream and terminates the
process, whatever events follow it in the session and whatever sessions
would follow: the event is not skipped. -/
theorem decode_failure_crashes (env : Env) (evs : List RawEvent)
    (e : StreamEnd) (rest : List Session) (st : St) :
    runMain env ((RawEvent.malformed :: evs, e) :: rest) st
      = (st, Outcome.crashed ProgError.jsonDecodeError) := rfl

/-- C5 counterexample: a stream-level failure other than
`ChunkedEncodingError` (here a connection error while reading the push
stream) is not caught: the modelled process terminates without any
reconnection attempt. -/
theorem stream_failure_counterexample :
    runMain ⟨fun _ => ⟨200, []⟩, fun _ => ⟨200, []⟩⟩
        [([], StreamEnd.connectionError)] initSt
      = (initSt, Outcome.fatalStream) := by decide

/-- C5 amended: only a `requests.exceptions.ChunkedEncodingError`
triggers a reconnection (the loop continues with the retained state);
any other stream-read failure is uncaught and fatal to the process. -/
theorem stream_failure_only_chunked_reconnects (env : Env)
    (evs : List RawEvent) (rest : List Session) (st st' : St)
    (h : runSession env evs st = (st', none)) :
    runMain env ((evs, StreamEnd.chunkedEncodingError) :: rest) st
      = runMain env rest st' ∧
    runMain env ((evs, StreamEnd.connectionError) :: rest) st
      = (st', Outcome.fatalStream) :=
  ⟨runMain_cons_chunked env evs rest st st' h,
   runMain_cons_conn env evs rest st st' h⟩

/-- Witness for C5 amended with an empty session. -/
theorem stream_failure_only_chunked_reconnects_witness :
    runMain ⟨fun _ => ⟨200, []⟩, fun _ => ⟨200, []⟩⟩
        [([], StreamEnd.chunkedEncodingError)] initSt
      = runMain ⟨fun _ => ⟨200, []⟩, fun _ => ⟨200, []⟩⟩ [] initSt ∧
    runMain ⟨fun _ => ⟨200, []⟩, fun _ => ⟨200, []⟩⟩
        [([], StreamEnd.connectionError)] initSt
      = (initSt, Outcome.fatalStream) :=
  stream_failure_only_chunked_reconnects _ [] [] initSt initSt rfl

/-- C6 counterexample: a `sent` event whose fetch-by-uuid returns a
non-raising, non-200 response (status 204): the data is `None`, no
frame is written to the pipe, yet `last_seq_num` advances to 5 — the
watermark moves past a message that was never written. -/
theorem watermark_no_write_counterexample :
    runMain ⟨fun _ => ⟨200, []⟩, fun _ => ⟨204, []⟩⟩
        [([RawEvent.order "sent" 5 "u"], StreamEnd.chunkedEncodingError)] initSt
      = (⟨some 5, [], [], [5]⟩, Outcome.ranOut) := by decide

/-- C6 amended: processing a `sent` notification (with no prior
watermark), the assignment `last_seq_num = seq_num` comes after the
fetch-and-write step in program order: a raising fetch (status in
`[400, 600)`) aborts before the watermark is assigned; a 200 fetch
writes the frame and then assigns the watermark; but a non-raising,
non-200 fetch writes nothing and still assigns the watermark, so the
watermark can advance past an undelivered message. -/
theorem watermark_advance_cases (env : Env) (seq_num : Nat) (uuid : String)
    (st : St) (hnone : st.last_seq_num = none) :
    (400 ≤ (env.fetchMsg uuid).status_code →
      (env.fetchMsg uuid).status_code < 600 →
      processOrder env "sent" seq_num uuid st
        = (st, some (ProgError.httpError (env.fetchMsg uuid).status_code))) ∧
    ((env.fetchMsg uuid).status_code = 200 →
      processOrder env "sent" seq_num uuid st
        = ({ st with
              writes := st.writes ++
                [create_output_data_struct (env.fetchMsg uuid).content],
              last_seq_num := some seq_num,
              watermarkUpdates := st.watermarkUpdates ++ [seq_num] }, none)) ∧
    (¬ (400 ≤ (env.fetchMsg uuid).status_code ∧
        (env.fetchMsg uuid).status_code < 600) →
      (env.fetchMsg uuid).status_code ≠ 200 →
      processOrder env "sent" seq_num uuid st
        = ({ st with
              last_seq_num := some seq_num,
              watermarkUpdates := st.watermarkUpdates ++ [seq_num] }, none)) := by
  refine ⟨fun h4 h5 => ?_, fun hok => processOrder_none_ok _ _ _ _ hnone hok,
    fun hno hne => ?_⟩
  · unfold processOrder
    rw [hnone]
    simp only [if_pos rfl, fetch_api_data_err _ h4 h5, if_true]
  · unfold processOrder
    rw [hnone]
    simp only [if_pos rfl, fetch_api_data_none _ hno hne, if_true]

/-- Witness for C6 amended, exercising the non-raising, non-200 case
(status 204): the watermark advances with no write. -/
theorem watermark_advance_cases_witness :
    processOrder ⟨fun _ => ⟨200, []⟩, fun _ => ⟨204, [3]⟩⟩ "sent" 5 "u" initSt
      = ({ initSt with
            last_seq_num := some 5,
            watermarkUpdates := initSt.watermarkUpdates ++ [5] }, none) :=
  (watermark_advance_cases ⟨fun _ => ⟨200, []⟩, fun _ => ⟨204, [3]⟩⟩ 5 "u"
      initSt rfl).2.2 (by decide) (by decide)

/-- C7 counterexample: events 1 then 4 with every fetch succeeding: the
backfill delivers messages 2 and 3 (their frames are written), but the
watermark-update trace is `[1, 4]` — zero updates for the two backfilled
messages, not one update per delivered message. -/
theorem watermark_once_counterexample :
    runMain envAllOk
        [([RawEvent.order "sent" 1 "a", RawEvent.order "sent" 4 "b"],
          StreamEnd.chunkedEncodingError)] initSt
      = (⟨some 4,
          [create_output_data_struct [0], create_output_data_struct [2],
           create_output_data_struct [3], create_output_data_struct [0]],
          [2, 3], [1, 4]⟩, Outcome.ranOut) ∧
    ((runMain envAllOk
        [([RawEvent.order "sent" 1 "a", RawEvent.order "sent" 4 "b"],
          StreamEnd.chunkedEncodingError)] initSt).1.watermarkUpdates.count 2
      = 0) := by
  constructor <;> decide

/-- C7 amended: the watermark is assigned exactly once per processed
live `sent` notification and never during backfill: `catch_up` leaves
`last_seq_num` and the update trace untouched for every missing list and
every fetch behaviour, while a live notification (here from a fresh
watermark, with a 200 fetch) appends exactly one update. -/
theorem watermark_updates_live_only (env : Env) (missing : List Nat)
    (st : St) (seq_num : Nat) (uuid : String)
    (hnone : st.last_seq_num = none)
    (hok : (env.fetchMsg uuid).status_code = 200) :
    (catch_upRun env.fetchSeq missing st).1.watermarkUpdates
      = st.watermarkUpdates ∧
    (catch_upRun env.fetchSeq missing st).1.last_seq_num = st.last_seq_num ∧
    (processOrder env "sent" seq_num uuid st).1.watermarkUpdates
      = st.watermarkUpdates ++ [seq_num] := by
  refine ⟨(catch_upRun_preserves _ _ _).1, (catch_upRun_preserves _ _ _).2, ?_⟩
  rw [processOrder_none_ok _ _ _ _ hnone hok]

/-- Witness for C7 amended at the missing list `[2, 3]` and the live
event 4. -/
theorem watermark_updates_live_only_witness :
    (catch_upRun envAllOk.fetchSeq [2, 3] initSt).1.watermarkUpdates
      = initSt.watermarkUpdates ∧
    (catch_upRun envAllOk.fetchSeq [2, 3] initSt).1.last_seq_num
      = initSt.last_seq_num ∧
    (processOrder envAllOk "sent" 4 "b" initSt).1.watermarkUpdates
      = initSt.watermarkUpdates ++ [4] :=
  watermark_updates_live_only envAllOk [2, 3] initSt 4 "b" rfl rfl

/-- C8: a caught disconnect reconnects with the state — including
`last_seq_num` — carried over unchanged, and in the concrete scenario
(deliver 7, disconnect, reconnect, live event 9) exactly one backfill
fetch occurs, for sequence number 8, using the preserved watermark 7. -/
theorem reconnect_preserves_watermark (env : Env) (evs : List RawEvent)
    (rest : List Session) (st st' : St)
    (h : runSession env evs st = (st', none)) :
    runMain env ((evs, StreamEnd.chunkedEncodingError) :: rest) st
      = runMain env rest st' ∧
    runMain envAllOk
        [([RawEvent.order "sent" 7 "a"], StreamEnd.chunkedEncodingError),
         ([RawEvent.order "sent" 9 "b"], StreamEnd.chunkedEncodingError)]
        initSt
      = (⟨some 9,
          [create_output_data_struct [0], create_output_data_struct [8],
           create_output_data_struct [0]], [8], [7, 9]⟩, Outcome.ranOut) :=
  ⟨runMain_cons_chunked env evs rest st st' h, by decide⟩

/-- Witness for C8 with an empty first session. -/
theorem reconnect_preserves_watermark_witness :
    runMain envAllOk [([], StreamEnd.chunkedEncodingError)] initSt
      = runMain envAllOk [] initSt ∧
    runMain envAllOk
        [([RawEvent.order "sent" 7 "a"], StreamEnd.chunkedEncodingError),
         ([RawEvent.order "sent" 9 "b"], StreamEnd.chunkedEncodingError)]
        initSt
      = (⟨some 9,
          [create_output_data_struct [0], create_output_data_struct [8],
           create_output_data_struct [0]], [8], [7, 9]⟩, Outcome.ranOut) :=
  reconnect_preserves_watermark envAllOk [] [] initSt initSt rfl

/-- Helper: decoding the little-endian encoding of `n` recovers
`n` modulo the capacity of the field. -/
theorem readLE_packLE (k n : Nat) : readLE (packLE k n) = n % 256 ^ k := by
  induction k generalizing n with
  | zero => simp [packLE, readLE, Nat.mod_one]
  | succ k ih =>
    show n % 256 + 256 * readLE (packLE k (n / 256)) = n % 256 ^ (k + 1)
    rw [ih, pow_succ, mul_comm ((256 : Nat) ^ k) 256, Nat.mod_mul]

/-- C9: the frame encoder produces the fixed 64-byte delimiter, then the
payload length as a fixed-width (8-byte) unsigned integer, then the raw
payload bytes unmodified; parsing the header back out of the encoded
frame recovers exactly the payload length and the original bytes, and
the empty payload encodes to exactly the delimiter plus a zero length
field with nothing following. -/
theorem frame_encoder_roundtrip (data : List Nat)
    (h : data.length < 2 ^ 64) :
    create_output_data_struct data =
      OUT_DATA_DELIMITER ++ packUint64LE data.length ++ data ∧
    OUT_DATA_DELIMITER.length = 64 ∧
    (packUint64LE data.length).length = 8 ∧
    parseFrame (create_output_data_struct data) = some (data.length, data) ∧
    create_output_data_struct [] = OUT_DATA_DELIMITER ++ packUint64LE 0 := by
  have hdel : OUT_DATA_DELIMITER.length = 64 := rfl
  have hpack : ∀ n : Nat, (packUint64LE n).length = 8 := fun n => rfl
  refine ⟨rfl, hdel, hpack _, ?_, rfl⟩
  have h64 : (256 : Nat) ^ 8 = 2 ^ 64 := by norm_num
  have hread : readLE (packUint64LE data.length) = data.length := by
    rw [packUint64LE, readLE_packLE, h64, Nat.mod_eq_of_lt h]
  unfold parseFrame
  rw [show create_output_data_struct data
      = OUT_DATA_DELIMITER ++ (packUint64LE data.length ++ data) from rfl]
  rw [List.take_left' hdel, if_pos rfl, List.drop_left' hdel,
    List.take_left' (hpack _), hread]
  have h72 : (OUT_DATA_DELIMITER ++ packUint64LE data.length).length = 72 := by
    rw [List.length_append, hdel, hpack]
  rw [← List.append_assoc, List.drop_left' h72, List.take_length]

/-- Witness for C9 at the payload `[1, 2, 3]`. -/
theorem frame_encoder_roundtrip_witness :
    create_output_data_struct [1, 2, 3] =
      OUT_DATA_DELIMITER ++ packUint64LE (List.length [1, 2, 3]) ++ [1, 2, 3] ∧
    OUT_DATA_DELIMITER.length = 64 ∧
    (packUint64LE (List.length [1, 2, 3])).length = 8 ∧
    parseFrame (create_output_data_struct [1, 2, 3]) =
      some (List.length [1, 2, 3], [1, 2, 3]) ∧
    create_output_data_struct [] = OUT_DATA_DELIMITER ++ packUint64LE 0 :=
  frame_encoder_roundtrip [1, 2, 3] (by decide)

/-- C10: a `sent` notification whose sequence number equals the current
watermark computes an empty missing set, still fetches the message by
uuid (here returning 200) and writes one additional frame for it to the
pipe, and leaves the watermark at the same value — the same message can
be written to the Sink more than once. -/
theorem duplicate_seq_rewrites (env : Env) (st : St) (s : Nat) (uuid : String)
    (hlast : st.last_seq_num = some s) (hs : s < MAX_SEQ_NUM)
    (hok : (env.fetchMsg uuid).status_code = 200) :
    missing_num s s = [] ∧
    processOrder env "sent" s uuid st
      = ({ st with
            writes := st.writes ++
              [create_output_data_struct (env.fetchMsg uuid).content],
            last_seq_num := some s,
            watermarkUpdates := st.watermarkUpdates ++ [s] }, none) := by
  have hM : MAX_SEQ_NUM = 2147483648 := by norm_num [MAX_SEQ_NUM]
  have hguard : s ≠ (s + 1) % MAX_SEQ_NUM := by
    rcases Nat.lt_or_ge (s + 1) MAX_SEQ_NUM with hlt | hge
    · rw [Nat.mod_eq_of_lt hlt]
      omega
    · have he : s + 1 = MAX_SEQ_NUM := by omega
      rw [he, Nat.mod_self]
      omega
  refine ⟨missing_num_self s, ?_⟩
  unfold processOrder
  rw [hlast]
  simp only [if_pos rfl, if_pos hguard, missing_num_self, catch_upRun,
    fetch_api_data_ok _ hok, if_true]

/-- Witness for C10 at watermark 5 and a duplicate event 5. -/
theorem duplicate_seq_rewrites_witness :
    missing_num 5 5 = [] ∧
    processOrder ⟨fun _ => ⟨200, []⟩, fun _ => ⟨200, [9]⟩⟩ "sent" 5 "u"
        ⟨some 5, [], [], []⟩
      = (⟨some 5, [create_output_data_struct [9]], [], [5]⟩, none) :=
  duplicate_seq_rewrites _ _ 5 "u" rfl (by decide) rfl

end DemoRx
